import Mathlib

/-!
Verification of `src/code/data/features/enhance_features.py`.

The single function `enhance_features(feature_dict)` is shallowly embedded as a
pure Lean function over association lists modelling Python dicts.  Python
numbers (ints and floats) are modelled as rationals; the float `nan` and
strings get their own constructors so that Python's dynamic failure modes
(`TypeError`, `KeyError`, `ZeroDivisionError`) can be reproduced.  Raising is
modelled with `Except`.  The call `np.log1p` is transcendental, so the model is
parametrised by an arbitrary function `L : ℚ → ℚ` standing for `log1p` on
arguments greater than `-1`; for arguments `≤ -1` numpy emits a warning and
returns a non-finite float (`nan` below `-1`, `-inf` at exactly `-1`) instead
of raising `ValueError` — both non-finite outcomes are modelled by `Val.nan`.
-/

set_option maxHeartbeats 1000000

namespace Packware

/-- A Python value stored in one of the feature sub-dictionaries: a number
(int/float conflated as `ℚ`), the float `nan`, or a (malformed) string. -/
inductive Val where
  | num (q : ℚ)
  | nan
  | str (s : String)
deriving DecidableEq

/-- The Python exceptions that the embedded code can raise or catch. -/
inductive PyErr where
  | keyError (k : String)
  | typeError
  | valueError
  | zeroDivisionError
deriving DecidableEq

/-- A top-level entry of `feature_dict`: a sub-dictionary of named values, a
collection of strings (`imps`/`exps`/`dlls`), or an opaque object (`rich`). -/
inductive TopVal where
  | dict (m : List (String × Val))
  | strs (l : List String)
  | obj (n : Nat)
deriving DecidableEq

abbrev SubMap := List (String × Val)
abbrev DMap := List (String × Val)
abbrev Bundle := List (String × TopVal)

/-- Dict lookup (first occurrence wins; Python dicts have unique keys). -/
def pyGet {α : Type} : List (String × α) → String → Option α
  | [], _ => none
  | p :: rest, k => if p.1 = k then some p.2 else pyGet rest k

/-- Dict assignment `m[k] = v`: replaces the value in place if the key exists,
else appends, matching Python's insertion-order semantics. -/
def pySet {α : Type} : List (String × α) → String → α → List (String × α)
  | [], k, v => [(k, v)]
  | p :: rest, k, v => if p.1 = k then (k, v) :: rest else p :: pySet rest k v

/-- Is the value a proper number (neither `nan` nor a string)? -/
def Val.isNum : Val → Bool
  | .num _ => true
  | _ => false

/-- Python true division `a / b`.  Any string operand is a `TypeError`; a zero
divisor is a `ZeroDivisionError` (also for `nan / 0`); `nan` propagates. -/
def pyDiv : Val → Val → Except PyErr Val
  | .str _, _ => .error .typeError
  | _, .str _ => .error .typeError
  | a, .num b =>
    if b = 0 then .error .zeroDivisionError
    else match a with
      | .num a' => .ok (.num (a' / b))
      | _ => .ok .nan
  | _, .nan => .ok .nan

/-- Python subtraction on the values the source subtracts. -/
def pySub : Val → Val → Except PyErr Val
  | .num a, .num b => .ok (.num (a - b))
  | .str _, _ => .error .typeError
  | _, .str _ => .error .typeError
  | _, _ => .ok .nan

/-- Python multiplication.  (Python's `str * int` sequence repetition is
modelled as a `TypeError`: in the source every product feeds a numeric
context, and the int/float distinction is erased by the `ℚ` model.) -/
def pyMul : Val → Val → Except PyErr Val
  | .num a, .num b => .ok (.num (a * b))
  | .str _, _ => .error .typeError
  | _, .str _ => .error .typeError
  | _, _ => .ok .nan

/-- Python addition on the values the source adds. -/
def pyAdd : Val → Val → Except PyErr Val
  | .num a, .num b => .ok (.num (a + b))
  | .str _, _ => .error .typeError
  | _, .str _ => .error .typeError
  | _, _ => .ok .nan

/-- The test `v != 0`: never raises; `nan != 0` and `"s" != 0` are `True`. -/
def pyNeZero : Val → Bool
  | .num q => decide (q ≠ 0)
  | .nan => true
  | .str _ => true

/-- The test `v > 0`: `nan > 0` is `False`; comparing a string raises. -/
def pyGtZero : Val → Except PyErr Bool
  | .num q => .ok (decide (0 < q))
  | .nan => .ok false
  | .str _ => .error .typeError

/-- `feature_dict[k]`: `KeyError` when the key is absent. -/
def getItem (b : Bundle) (k : String) : Except PyErr TopVal :=
  match pyGet b k with
  | some v => .ok v
  | none => .error (.keyError k)

/-- `sub[k]` where `sub` came out of the top-level dict: subscripting a
non-dict raises `TypeError`, a dict without the key raises `KeyError`. -/
def subsc (sv : TopVal) (k : String) : Except PyErr Val :=
  match sv with
  | .dict m =>
    match pyGet m k with
    | some v => .ok v
    | none => .error (.keyError k)
  | _ => .error .typeError

/-- `set(x)` for `imps`/`exps`/`dlls`: a string collection dedups to its
distinct elements; `set(dict)` is the set of keys; other objects raise. -/
def toStrList : TopVal → Except PyErr (List String)
  | .strs l => .ok l.dedup
  | .dict m => .ok (m.map (fun p => p.1)).dedup
  | .obj _ => .error .typeError

/-- `'pesectionProcessed_resources_nb' in sections`: key test on a dict,
element test on a list, `TypeError` on a non-container. -/
def hasResourcesNb : TopVal → Except PyErr Bool
  | .dict m => .ok (pyGet m "pesectionProcessed_resources_nb").isSome
  | .strs l => .ok (l.contains "pesectionProcessed_resources_nb")
  | .obj _ => .error .typeError

/-- Wrap a stage body in `except KeyError: derived.update({... : 0})`.  The
handler overwrites every key the body could have written, so its net effect is
the default map applied to the stage's entry state. -/
def catchKeyErr (r : Except PyErr DMap) (dflt : DMap) : Except PyErr DMap :=
  match r with
  | .ok d => .ok d
  | .error (.keyError _) => .ok dflt
  | .error e => .error e

/-- Section stage defaults (the `except KeyError` handler of stage 1). -/
def sectionDefaults (d : DMap) : DMap :=
  pySet (pySet (pySet (pySet d "derived_sectionSizeRatio" (Val.num 0))
    "derived_virtualToRawRatio" (Val.num 0)) "derived_entropyVariance" (Val.num 0))
    "derived_meanToMaxEntropyRatio" (Val.num 0)

/-- Lines 30-33: `derived_sectionSizeRatio` (max / min guarded by `min != 0`). -/
def sectionBody1 (sv : TopVal) (d : DMap) : Except PyErr DMap := do
  let mn ← subsc sv "pesectionProcessed_sectionsMinSize"
  if pyNeZero mn then do
    let mx ← subsc sv "pesectionProcessed_sectionsMaxSize"
    let r ← pyDiv mx mn
    pure (pySet d "derived_sectionSizeRatio" r)
  else pure (pySet d "derived_sectionSizeRatio" (Val.num 0))

/-- Lines 35-38: `derived_virtualToRawRatio` (meanVirtual / mean guarded). -/
def sectionBody2 (sv : TopVal) (d : DMap) : Except PyErr DMap := do
  let ms ← subsc sv "pesectionProcessed_sectionsMeanSize"
  if pyNeZero ms then do
    let mv ← subsc sv "pesectionProcessed_sectionsMeanVirtualSize"
    let r ← pyDiv mv ms
    pure (pySet d "derived_virtualToRawRatio" r)
  else pure (pySet d "derived_virtualToRawRatio" (Val.num 0))

/-- Lines 41-42: `derived_entropyVariance` and `derived_meanToMaxEntropyRatio`. -/
def sectionBody3 (sv : TopVal) (d : DMap) : Except PyErr DMap := do
  let mxE ← subsc sv "pesectionProcessed_sectionsMaxEntropy"
  let mnE ← subsc sv "pesectionProcessed_sectionsMinEntropy"
  let ev ← pySub mxE mnE
  let d := pySet d "derived_entropyVariance" ev
  if pyNeZero mxE then do
    let meE ← subsc sv "pesectionProcessed_sectionsMeanEntropy"
    let r ← pyDiv meE mxE
    pure (pySet d "derived_meanToMaxEntropyRatio" r)
  else pure (pySet d "derived_meanToMaxEntropyRatio" (Val.num 0))

/-- Body of stage 1 (Section-based Relationships), lines 29-43 of the source,
reads in Python's left-to-right evaluation order. -/
def sectionBody (sv : TopVal) (d : DMap) : Except PyErr DMap := do
  let d ← sectionBody1 sv d
  let d ← sectionBody2 sv d
  sectionBody3 sv d

/-- Stage 1 with its `except KeyError` handler. -/
def sectionStage (sv : TopVal) (d : DMap) : Except PyErr DMap :=
  catchKeyErr (sectionBody sv d) (sectionDefaults d)

/-- Size stage defaults (both the `else` branch and the handler of stage 2). -/
def sizeDefaults (d : DMap) : DMap :=
  pySet (pySet (pySet (pySet (pySet d "derived_headerSizeRatio" (Val.num 0))
    "derived_codeSizeRatio" (Val.num 0)) "derived_entropyToSizeRatio" (Val.num 0))
    "derived_uninitializedRatio" (Val.num 0)) "derived_initializedRatio" (Val.num 0)

/-- One line of stage 2: read a numerator from `src` and divide by `fs`. -/
def sizeRatioPart (src : TopVal) (numKey outKey : String) (fs : Val)
    (d : DMap) : Except PyErr DMap := do
  let x ← subsc src numKey
  let r ← pyDiv x fs
  pure (pySet d outKey r)

/-- Body of stage 2 (Size Relationships), lines 52-67.  The repeated Python
subscripts of `generics['generic_fileSize']` are pure and hence read once. -/
def sizeBody (gv hv : TopVal) (d : DMap) : Except PyErr DMap := do
  let fs ← subsc gv "generic_fileSize"
  if pyNeZero fs then do
    let d ← sizeRatioPart hv "header_SizeOfHeaders" "derived_headerSizeRatio" fs d
    let d ← sizeRatioPart hv "header_SizeOfCode" "derived_codeSizeRatio" fs d
    let d ← sizeRatioPart gv "generic_fileEntropy" "derived_entropyToSizeRatio" fs d
    let d ← sizeRatioPart hv "header_SizeOfUninitializedData" "derived_uninitializedRatio" fs d
    sizeRatioPart hv "header_SizeOfInitializedData" "derived_initializedRatio" fs d
  else
    pure (sizeDefaults d)

/-- Stage 2 with its `except KeyError` handler. -/
def sizeStage (gv hv : TopVal) (d : DMap) : Except PyErr DMap :=
  catchKeyErr (sizeBody gv hv d) (sizeDefaults d)

/-- The fixed API-category keyword table of lines 82-89.  The keyword sets are
Python set literals; only membership is used, so list order is irrelevant. -/
def apiCategories : List (String × List String) :=
  [("network", ["socket", "connect", "send", "recv", "bind", "listen", "accept",
      "inet", "http", "ftp"]),
   ("file", ["file", "read", "write", "create", "delete", "move", "copy", "find"]),
   ("registry", ["reg", "registry", "hkey"]),
   ("process", ["process", "thread", "virtual", "memory", "alloc", "free"]),
   ("crypto", ["crypt", "decrypt", "encrypt", "hash", "rc4", "aes", "rsa"]),
   ("ui", ["window", "dialog", "gui", "menu", "button", "display"])]

/-- Python substring test `needle in hay`. -/
def strContainsSub (hay needle : String) : Bool :=
  decide (List.IsInfix needle.toList hay.toList)

/-- `any(keyword in imp.lower() for keyword in keywords)`. -/
def matchesCategory (keywords : List String) (imp : String) : Bool :=
  keywords.any (fun kw => strContainsSub imp.toLower kw)

/-- Lines 92-99: the six `derived_{category}ApisRatio` entries. -/
def apiStage (imps : List String) (d : DMap) : DMap :=
  if imps.length > 0 then
    apiCategories.foldl (fun d ck =>
      pySet d ("derived_" ++ ck.1 ++ "ApisRatio")
        (Val.num ((imps.countP (fun i => matchesCategory ck.2 i) : ℚ) / (imps.length : ℚ)))) d
  else
    apiCategories.foldl (fun d ck =>
      pySet d ("derived_" ++ ck.1 ++ "ApisRatio") (Val.num 0)) d

/-- Lines 102-103: import/export and import/DLL count ratios. -/
def impExpStage (imps exps dlls : List String) (d : DMap) : DMap :=
  let d := pySet d "derived_importToExportRatio"
    (if exps.length > 0 then Val.num ((imps.length : ℚ) / (exps.length : ℚ))
     else Val.num (imps.length : ℚ))
  pySet d "derived_avgImportsPerDll"
    (if dlls.length > 0 then Val.num ((imps.length : ℚ) / (dlls.length : ℚ))
     else Val.num 0)

/-- Resource stage defaults (the `except KeyError` handler of stage 4). -/
def resourceDefaults (d : DMap) : DMap :=
  pySet (pySet (pySet d "derived_resourceDensity" (Val.num 0))
    "derived_resourceComplexity" (Val.num 0)) "derived_resourceSizeVariance" (Val.num 0)

/-- Lines 108-111: `derived_resourceDensity` guarded by `fileSize > 0`. -/
def resourceDensityPart (sv gv : TopVal) (d : DMap) : Except PyErr DMap := do
  let fs ← subsc gv "generic_fileSize"
  let gt ← pyGtZero fs
  if gt then do
    let nb ← subsc sv "pesectionProcessed_resources_nb"
    let inner ← pyDiv fs (Val.num 1024)
    let dens ← pyDiv nb inner
    pure (pySet d "derived_resourceDensity" dens)
  else pure (pySet d "derived_resourceDensity" (Val.num 0))

/-- Lines 113-118: `derived_resourceComplexity` / `derived_resourceSizeVariance`
guarded by `resources_nb > 0`. -/
def resourceRestPart (sv : TopVal) (d : DMap) : Except PyErr DMap := do
  let nb ← subsc sv "pesectionProcessed_resources_nb"
  let gtnb ← pyGtZero nb
  if gtnb then do
    let ms ← subsc sv "pesectionProcessed_resourcesMeanSize"
    let me ← subsc sv "pesectionProcessed_resourcesMeanEntropy"
    let comp ← pyMul ms me
    let d := pySet d "derived_resourceComplexity" comp
    if pyNeZero ms then do
      let mx ← subsc sv "pesectionProcessed_resourcesMaxSize"
      let mn ← subsc sv "pesectionProcessed_resourcesMinSize"
      let diff ← pySub mx mn
      let v ← pyDiv diff ms
      pure (pySet d "derived_resourceSizeVariance" v)
    else pure (pySet d "derived_resourceSizeVariance" (Val.num 0))
  else
    pure (pySet (pySet d "derived_resourceComplexity" (Val.num 0))
      "derived_resourceSizeVariance" (Val.num 0))

/-- Body of stage 4 (Resource Analysis), lines 106-118.  When the
resource-count key is not `in sections`, the body writes nothing at all. -/
def resourceBody (sv gv : TopVal) (d : DMap) : Except PyErr DMap := do
  let has ← hasResourcesNb sv
  if has then do
    let d ← resourceDensityPart sv gv d
    resourceRestPart sv d
  else pure d

/-- Stage 4 with its `except KeyError` handler. -/
def resourceStage (sv gv : TopVal) (d : DMap) : Except PyErr DMap :=
  catchKeyErr (resourceBody sv gv d) (resourceDefaults d)

/-- `np.log1p` applied to a stored value, parametrised by `L` (the exact
logarithm on valid arguments).  On an argument `≤ -1` numpy does NOT raise: it
returns a non-finite float (nan below `-1`, `-inf` at `-1`), modelled `nan`. -/
def npLog1p (L : ℚ → ℚ) : Val → Except PyErr Val
  | .num q => .ok (if -1 < q then Val.num (L q) else Val.nan)
  | .nan => .ok .nan
  | .str _ => .error .typeError

/-- Body of stage 5 (Complexity Metrics), lines 128-134. -/
def complexityBody (L : ℚ → ℚ) (gv sv : TopVal) (imps dlls : List String)
    (d : DMap) : Except PyErr DMap := do
  let fs ← subsc gv "generic_fileSize"
  let l1 ← npLog1p L fs
  let sizeC ← pyDiv l1 (Val.num 20)
  let fe ← subsc gv "generic_fileEntropy"
  let entC ← pyDiv fe (Val.num 8)
  let il ← npLog1p L (Val.num (imps.length : ℚ))
  let impC ← pyDiv il (Val.num 10)
  let mxE ← subsc sv "pesectionProcessed_sectionsMaxEntropy"
  let m1 ← pyMul mxE (Val.num (dlls.length : ℚ))
  let secC ← pyDiv m1 (Val.num 100)
  let s1 ← pyAdd sizeC entC
  let s2 ← pyAdd s1 impC
  let s3 ← pyAdd s2 secC
  let total ← pyDiv s3 (Val.num 4)
  pure (pySet d "derived_overallComplexity" total)

/-- Stage 5 with its `except (KeyError, ValueError)` handler. -/
def complexityStage (L : ℚ → ℚ) (gv sv : TopVal) (imps dlls : List String)
    (d : DMap) : Except PyErr DMap :=
  match complexityBody L gv sv imps dlls d with
  | .ok d2 => .ok d2
  | .error (.keyError _) => .ok (pySet d "derived_overallComplexity" (Val.num 0))
  | .error .valueError => .ok (pySet d "derived_overallComplexity" (Val.num 0))
  | .error e => .error e

/-- The whole function body up to the final merge: builds the `derived` dict,
in the source's statement order. -/
def computeDerived (L : ℚ → ℚ) (b : Bundle) : Except PyErr DMap := do
  let sv ← getItem b "sections"
  let hv ← getItem b "headers"
  let gv ← getItem b "generics"
  let d ← sectionStage sv []
  let d ← sizeStage gv hv d
  let impsV ← getItem b "imps"
  let imps ← toStrList impsV
  let expsV ← getItem b "exps"
  let exps ← toStrList expsV
  let dllsV ← getItem b "dlls"
  let dlls ← toStrList dllsV
  let d := apiStage imps d
  let d := impExpStage imps exps dlls d
  let d ← resourceStage sv gv d
  complexityStage L gv sv imps dlls d

/-- `enhance_features`: shallow-copies the bundle and assigns
`enhanced_features['derived'] = derived` (lines 21 and 138-141). -/
def enhance_features (L : ℚ → ℚ) (b : Bundle) : Except PyErr Bundle :=
  (computeDerived L b).map (fun d => pySet b "derived" (TopVal.dict d))

/-! ### Observation helpers and net-effect functions -/

/-- Did the call return normally (no Python exception)? -/
def isOkE {α : Type} : Except PyErr α → Bool
  | .ok _ => true
  | .error _ => false

/-- The exception raised, if any. -/
def errOf {α : Type} : Except PyErr α → Option PyErr
  | .ok _ => none
  | .error e => some e

/-- The computed `derived` dict of a successful call (junk `[]` on error). -/
def derivedOf (r : Except PyErr DMap) : DMap :=
  match r with
  | .ok d => d
  | .error _ => []

/-- The returned bundle of a successful call (junk `[]` on error). -/
def outOf (r : Except PyErr Bundle) : Bundle :=
  match r with
  | .ok b => b
  | .error _ => []

/-- The `derived` sub-dictionary of a returned bundle (junk `[]` otherwise). -/
def derivedDictOf (b : Bundle) : DMap :=
  match pyGet b "derived" with
  | some (TopVal.dict m) => m
  | _ => []

instance {ε α : Type} [DecidableEq ε] [DecidableEq α] : DecidableEq (Except ε α) := fun a b =>
  match a, b with
  | .ok x, .ok y =>
    if h : x = y then .isTrue (by rw [h]) else .isFalse (fun hh => h (Except.ok.inj hh))
  | .error x, .error y =>
    if h : x = y then .isTrue (by rw [h]) else .isFalse (fun hh => h (Except.error.inj hh))
  | .ok _, .error _ => .isFalse (fun hh => Except.noConfusion hh)
  | .error _, .ok _ => .isFalse (fun hh => Except.noConfusion hh)

/-- All values of a sub-dictionary are proper numbers. -/
def numMap (m : SubMap) : Bool :=
  m.all (fun p => p.2.isNum)

/-- Numeric lookup: the stored rational, or `none` if absent or non-numeric. -/
def qget (s : SubMap) (k : String) : Option ℚ :=
  match pyGet s k with
  | some (Val.num q) => some q
  | _ => none

/-- Net value of `sectionBody1` on an all-numeric dict: `none` = `KeyError`. -/
def sectionNet1 (s : SubMap) : Option ℚ := do
  let mn ← qget s "pesectionProcessed_sectionsMinSize"
  if mn ≠ 0 then do
    let mx ← qget s "pesectionProcessed_sectionsMaxSize"
    pure (mx / mn)
  else pure 0

/-- Net value of `sectionBody2` on an all-numeric dict. -/
def sectionNet2 (s : SubMap) : Option ℚ := do
  let ms ← qget s "pesectionProcessed_sectionsMeanSize"
  if ms ≠ 0 then do
    let mv ← qget s "pesectionProcessed_sectionsMeanVirtualSize"
    pure (mv / ms)
  else pure 0

/-- Net values of `sectionBody3` on an all-numeric dict. -/
def sectionNet3 (s : SubMap) : Option (ℚ × ℚ) := do
  let mxE ← qget s "pesectionProcessed_sectionsMaxEntropy"
  let mnE ← qget s "pesectionProcessed_sectionsMinEntropy"
  let r4 ← if mxE ≠ 0 then do
      let meE ← qget s "pesectionProcessed_sectionsMeanEntropy"
      pure (meE / mxE)
    else pure (0 : ℚ)
  pure (mxE - mnE, r4)

/-- Net value of the Section stage on an all-numeric `sections` dict: the four
stage outputs, all `0` as soon as a referenced key is missing. -/
def sectionNet (s : SubMap) : ℚ × ℚ × ℚ × ℚ :=
  (do
    let r1 ← sectionNet1 s
    let r2 ← sectionNet2 s
    let p ← sectionNet3 s
    pure (r1, r2, p.1, p.2) : Option (ℚ × ℚ × ℚ × ℚ)).getD (0, 0, 0, 0)

/-- Net value of one Size-stage ratio line on an all-numeric dict. -/
def sizeNetPart (m : SubMap) (k : String) (fs : ℚ) : Option ℚ :=
  (qget m k).map (fun x => x / fs)

/-- Net value of the Size stage on all-numeric dicts: the five ratios, or five
zeros when `fileSize` is `0` or any referenced key is missing. -/
def sizeNet (g h : SubMap) : ℚ × ℚ × ℚ × ℚ × ℚ :=
  (do
    let fs ← qget g "generic_fileSize"
    if fs ≠ 0 then do
      let a ← sizeNetPart h "header_SizeOfHeaders" fs
      let b ← sizeNetPart h "header_SizeOfCode" fs
      let c ← sizeNetPart g "generic_fileEntropy" fs
      let u ← sizeNetPart h "header_SizeOfUninitializedData" fs
      let i ← sizeNetPart h "header_SizeOfInitializedData" fs
      pure (a, b, c, u, i)
    else pure (0, 0, 0, 0, 0) : Option (ℚ × ℚ × ℚ × ℚ × ℚ)).getD (0, 0, 0, 0, 0)

/-- Net value of `resourceDensityPart` on all-numeric dicts. -/
def resourceDensityNet (s g : SubMap) : Option ℚ := do
  let fs ← qget g "generic_fileSize"
  if 0 < fs then do
    let nb ← qget s "pesectionProcessed_resources_nb"
    pure (nb / (fs / 1024))
  else pure 0

/-- Net values of `resourceRestPart` on an all-numeric dict. -/
def resourceRestNet (s : SubMap) : Option (ℚ × ℚ) := do
  let nb ← qget s "pesectionProcessed_resources_nb"
  if 0 < nb then do
    let ms ← qget s "pesectionProcessed_resourcesMeanSize"
    let me ← qget s "pesectionProcessed_resourcesMeanEntropy"
    let v ← if ms ≠ 0 then do
        let mx ← qget s "pesectionProcessed_resourcesMaxSize"
        let mn ← qget s "pesectionProcessed_resourcesMinSize"
        pure ((mx - mn) / ms)
      else pure (0 : ℚ)
    pure (ms * me, v)
  else pure (0, 0)

/-- Net value of the Resource stage on all-numeric dicts: `none` when the
resource-count key is absent (the stage then writes NOTHING), otherwise the
three outputs, all `0` as soon as a referenced key is missing. -/
def resourceNet (s g : SubMap) : Option (ℚ × ℚ × ℚ) :=
  if (pyGet s "pesectionProcessed_resources_nb").isSome then
    some ((do
      let dens ← resourceDensityNet s g
      let p ← resourceRestNet s
      pure (dens, p.1, p.2) : Option (ℚ × ℚ × ℚ)).getD (0, 0, 0))
  else none

/-- Net value of the Complexity stage on all-numeric dicts: `0` when a key is
missing; the mean of the four terms when `fileSize > -1`; the non-finite
`nan` when `fileSize ≤ -1` (numpy's `log1p` does not raise there). -/
def complexityNet (L : ℚ → ℚ) (g s : SubMap) (nImps nDlls : Nat) : Val :=
  match qget g "generic_fileSize", qget g "generic_fileEntropy",
      qget s "pesectionProcessed_sectionsMaxEntropy" with
  | some fs, some fe, some mxE =>
    if -1 < fs then
      Val.num ((L fs / 20 + fe / 8 + L (nImps : ℚ) / 10 + mxE * (nDlls : ℚ) / 100) / 4)
    else Val.nan
  | _, _, _ => Val.num 0

/-- The full `derived` dict produced on an all-numeric bundle, assembled from
the per-stage net values in the source's write order. -/
def derivedNum (L : ℚ → ℚ) (s h g : SubMap) (imps exps dlls : List String) : DMap :=
  let t1 := sectionNet s
  let d : DMap := pySet (pySet (pySet (pySet [] "derived_sectionSizeRatio" (Val.num t1.1))
    "derived_virtualToRawRatio" (Val.num t1.2.1)) "derived_entropyVariance" (Val.num t1.2.2.1))
    "derived_meanToMaxEntropyRatio" (Val.num t1.2.2.2)
  let t2 := sizeNet g h
  let d := pySet (pySet (pySet (pySet (pySet d "derived_headerSizeRatio" (Val.num t2.1))
    "derived_codeSizeRatio" (Val.num t2.2.1)) "derived_entropyToSizeRatio" (Val.num t2.2.2.1))
    "derived_uninitializedRatio" (Val.num t2.2.2.2.1)) "derived_initializedRatio" (Val.num t2.2.2.2.2)
  let d := apiStage imps d
  let d := impExpStage imps exps dlls d
  let d := match resourceNet s g with
    | some t => pySet (pySet (pySet d "derived_resourceDensity" (Val.num t.1))
        "derived_resourceComplexity" (Val.num t.2.1)) "derived_resourceSizeVariance" (Val.num t.2.2)
    | none => d
  pySet d "derived_overallComplexity" (complexityNet L g s imps.length dlls.length)

/-- The value `apiStage` writes for one category: the matching fraction, or
`0` when there are no imports. -/
def apiVal (i : List String) (kws : List String) : Val :=
  if i.length > 0 then
    Val.num ((i.countP (fun n => matchesCategory kws n) : ℚ) / (i.length : ℚ))
  else Val.num 0

/-- Abstracts the outcome of a one-write stage fragment on numeric input:
either the computed value is written, or some referenced key was missing. -/
def netStep (o : Option ℚ) (k kerr : String) (d : DMap) : Except PyErr DMap :=
  match o with
  | some v => .ok (pySet d k (Val.num v))
  | none => .error (.keyError kerr)

/-- Same for a two-write stage fragment. -/
def netStep2 (o : Option (ℚ × ℚ)) (k1 k2 kerr : String) (d : DMap) : Except PyErr DMap :=
  match o with
  | some p => .ok (pySet (pySet d k1 (Val.num p.1)) k2 (Val.num p.2))
  | none => .error (.keyError kerr)

/-- The six top-level keys every well-formed bundle must carry, bound to their
decoded contents. -/
def wfB (b : Bundle) (s h g : SubMap) (I E D : List String) : Prop :=
  pyGet b "sections" = some (TopVal.dict s) ∧ pyGet b "headers" = some (TopVal.dict h) ∧
  pyGet b "generics" = some (TopVal.dict g) ∧ pyGet b "imps" = some (TopVal.strs I) ∧
  pyGet b "exps" = some (TopVal.strs E) ∧ pyGet b "dlls" = some (TopVal.strs D)

/-- The four Section-stage output keys. -/
def sectionKeys : List String :=
  ["derived_sectionSizeRatio", "derived_virtualToRawRatio", "derived_entropyVariance",
   "derived_meanToMaxEntropyRatio"]

/-- The five Size-stage output keys. -/
def sizeKeys : List String :=
  ["derived_headerSizeRatio", "derived_codeSizeRatio", "derived_entropyToSizeRatio",
   "derived_uninitializedRatio", "derived_initializedRatio"]

/-- The six API-category output keys. -/
def apiKeys : List String :=
  ["derived_networkApisRatio", "derived_fileApisRatio", "derived_registryApisRatio",
   "derived_processApisRatio", "derived_cryptoApisRatio", "derived_uiApisRatio"]

/-- The three Resource-stage output keys. -/
def resourceKeys : List String :=
  ["derived_resourceDensity", "derived_resourceComplexity", "derived_resourceSizeVariance"]

/-- The 18 derived keys outside the Resource stage. -/
def baseKeys : List String :=
  sectionKeys ++ sizeKeys ++ apiKeys ++
  ["derived_importToExportRatio", "derived_avgImportsPerDll", "derived_overallComplexity"]

/-! ### Concrete bundles used as counterexamples and witnesses -/

/-- A realistic all-numeric bundle whose `sections` lacks the resource-count
key `pesectionProcessed_resources_nb`. -/
def cbNoRes : Bundle :=
  [("sections", .dict [("pesectionProcessed_sectionsMinSize", .num 2),
      ("pesectionProcessed_sectionsMaxSize", .num 8),
      ("pesectionProcessed_sectionsMeanSize", .num 4),
      ("pesectionProcessed_sectionsMeanVirtualSize", .num 6),
      ("pesectionProcessed_sectionsMaxEntropy", .num 6),
      ("pesectionProcessed_sectionsMinEntropy", .num 2),
      ("pesectionProcessed_sectionsMeanEntropy", .num 3)]),
   ("headers", .dict [("header_SizeOfHeaders", .num 10), ("header_SizeOfCode", .num 20),
      ("header_SizeOfUninitializedData", .num 5), ("header_SizeOfInitializedData", .num 15)]),
   ("generics", .dict [("generic_fileSize", .num 100), ("generic_fileEntropy", .num 4)]),
   ("imps", .strs ["CreateFileW", "Send", "RegOpenKeyA"]),
   ("exps", .strs []),
   ("dlls", .strs ["kernel32.dll"]),
   ("rich", .obj 7)]

/-- A bundle with the six required keys but empty sub-dictionaries and empty
import/export/DLL collections. -/
def cbEmpty : Bundle :=
  [("sections", .dict []), ("headers", .dict []), ("generics", .dict []),
   ("imps", .strs []), ("exps", .strs []), ("dlls", .strs []), ("rich", .obj 1)]

/-- `cbEmpty` except the input already carries a `derived` entry. -/
def cbPreDerived : Bundle :=
  [("sections", .dict []), ("headers", .dict []), ("generics", .dict []),
   ("imps", .strs []), ("exps", .strs []), ("dlls", .strs []), ("rich", .obj 1),
   ("derived", .obj 7)]

/-- `cbEmpty` except the input already carries a `derived` entry (C10 witness). -/
def cbPreDerived2 : Bundle :=
  [("sections", .dict []), ("headers", .dict []), ("generics", .dict []),
   ("imps", .strs []), ("exps", .strs []), ("dlls", .strs []), ("rich", .obj 2),
   ("derived", .obj 3)]

/-- A bundle missing the required `imps` key. -/
def cbNoImps : Bundle :=
  [("sections", .dict []), ("headers", .dict []), ("generics", .dict []),
   ("exps", .strs []), ("dlls", .strs []), ("rich", .obj 1)]

/-- A bundle missing the top-level `sections` key. -/
def cbNoSections : Bundle :=
  [("headers", .dict []), ("generics", .dict []),
   ("imps", .strs []), ("exps", .strs []), ("dlls", .strs []), ("rich", .obj 1)]

/-- A bundle with a negative `generic_fileSize` (= `-2`), on which numpy's
`log1p` yields `nan` without raising. -/
def cbNegSize : Bundle :=
  [("sections", .dict [("pesectionProcessed_sectionsMaxEntropy", .num 5)]),
   ("headers", .dict []),
   ("generics", .dict [("generic_fileSize", .num (-2)), ("generic_fileEntropy", .num 4)]),
   ("imps", .strs []), ("exps", .strs []), ("dlls", .strs []), ("rich", .obj 1)]

/-- A bundle with a malformed (string) value inside `sections`. -/
def cbMalformed : Bundle :=
  [("sections", .dict [("pesectionProcessed_sectionsMinSize", .num 1),
      ("pesectionProcessed_sectionsMaxSize", .str "oops")]),
   ("headers", .dict []), ("generics", .dict []),
   ("imps", .strs []), ("exps", .strs []), ("dlls", .strs []), ("rich", .obj 1)]

/-- A bundle with two imports and no exports. -/
def cbTwoImps : Bundle :=
  [("sections", .dict []), ("headers", .dict []), ("generics", .dict []),
   ("imps", .strs ["A", "B"]), ("exps", .strs []), ("dlls", .strs []), ("rich", .obj 1)]

/-- A bundle exercising the Size stage with `fileSize = 100`. -/
def cbSized : Bundle :=
  [("sections", .dict []),
   ("headers", .dict [("header_SizeOfHeaders", .num 10), ("header_SizeOfCode", .num 20),
      ("header_SizeOfUninitializedData", .num 5), ("header_SizeOfInitializedData", .num 15)]),
   ("generics", .dict [("generic_fileSize", .num 100), ("generic_fileEntropy", .num 4)]),
   ("imps", .strs []), ("exps", .strs []), ("dlls", .strs []), ("rich", .obj 1)]

/-! ### General lemmas about the dict model -/

theorem ebind_ok {α β : Type} (a : α) (f : α → Except PyErr β) :
    (Except.ok a >>= f) = f a := rfl

theorem ebind_err {α β : Type} (e : PyErr) (f : α → Except PyErr β) :
    ((Except.error e : Except PyErr α) >>= f) = .error e := rfl

theorem epure {α : Type} (a : α) : (pure a : Except PyErr α) = .ok a := rfl

theorem pyGet_nil {α : Type} (k : String) : pyGet ([] : List (String × α)) k = none := rfl

theorem pyGet_pySet {α : Type} (m : List (String × α)) (k k' : String) (v : α) :
    pyGet (pySet m k v) k' = if k' = k then some v else pyGet m k' := by
  induction m with
  | nil =>
    by_cases h : k' = k
    · simp [pySet, pyGet, h]
    · simp [pySet, pyGet, h, Ne.symm h]
  | cons p rest ih =>
    by_cases h1 : p.1 = k
    · by_cases h2 : k' = k
      · simp [pySet, pyGet, h1, h2]
      · have h3 : p.1 ≠ k' := by rw [h1]; exact fun hh => h2 hh.symm
        simp [pySet, pyGet, h1, h2, h3, Ne.symm h2]
    · by_cases h2 : k' = k
      · subst h2
        simp [pySet, pyGet, h1, ih]
      · simp [pySet, pyGet, h1, h2, ih]

theorem numMap_get {s : SubMap} {k : String} {v : Val} (hs : numMap s = true)
    (h : pyGet s k = some v) : ∃ q, v = Val.num q := by
  induction s with
  | nil => simp [pyGet] at h
  | cons p rest ih =>
    simp only [numMap, List.all_cons, Bool.and_eq_true] at hs
    simp only [pyGet] at h
    by_cases hp : p.1 = k
    · rw [if_pos hp] at h
      have hv2 : p.2 = v := Option.some.inj h
      cases hv : p.2 with
      | num q => exact ⟨q, by rw [← hv2, hv]⟩
      | nan => rw [hv] at hs; simp [Val.isNum] at hs
      | str s => rw [hv] at hs; simp [Val.isNum] at hs
    · rw [if_neg hp] at h
      exact ih hs.2 h

theorem qget_eq {s : SubMap} (hs : numMap s = true) (k : String) :
    pyGet s k = (qget s k).map (fun q => Val.num q) := by
  cases h : pyGet s k with
  | none => simp [qget, h]
  | some v =>
    obtain ⟨q, rfl⟩ := numMap_get hs h
    simp [qget, h]

theorem subsc_num {s : SubMap} (hs : numMap s = true) (k : String) :
    subsc (TopVal.dict s) k = (match qget s k with
      | some q => .ok (Val.num q)
      | none => .error (.keyError k)) := by
  simp only [subsc, qget_eq hs]
  cases qget s k <;> simp

/-! ### Per-fragment characterisation on all-numeric inputs -/

theorem sectionBody1_num {s : SubMap} (hs : numMap s = true) (d : DMap) :
    ∃ ek, sectionBody1 (TopVal.dict s) d
      = netStep (sectionNet1 s) "derived_sectionSizeRatio" ek d := by
  unfold sectionBody1 sectionNet1
  simp only [subsc_num hs]
  rcases hq1 : qget s "pesectionProcessed_sectionsMinSize" with _ | q1
  · exact ⟨"pesectionProcessed_sectionsMinSize", by simp [netStep, hq1, ebind_err]⟩
  · by_cases hz : q1 = 0
    · refine ⟨"", ?_⟩
      simp [netStep, hq1, hz, ebind_ok, epure, pyNeZero]
    · rcases hq2 : qget s "pesectionProcessed_sectionsMaxSize" with _ | q2
      · refine ⟨"pesectionProcessed_sectionsMaxSize", ?_⟩
        simp [netStep, hq1, hq2, hz, ebind_ok, ebind_err, epure, pyNeZero, pyDiv]
      · refine ⟨"", ?_⟩
        simp [netStep, hq1, hq2, hz, ebind_ok, ebind_err, epure, pyNeZero, pyDiv]

theorem sectionBody2_num {s : SubMap} (hs : numMap s = true) (d : DMap) :
    ∃ ek, sectionBody2 (TopVal.dict s) d
      = netStep (sectionNet2 s) "derived_virtualToRawRatio" ek d := by
  unfold sectionBody2 sectionNet2
  simp only [subsc_num hs]
  rcases hq1 : qget s "pesectionProcessed_sectionsMeanSize" with _ | q1
  · exact ⟨"pesectionProcessed_sectionsMeanSize", by simp [netStep, hq1, ebind_err]⟩
  · by_cases hz : q1 = 0
    · refine ⟨"", ?_⟩
      simp [netStep, hq1, hz, ebind_ok, epure, pyNeZero]
    · rcases hq2 : qget s "pesectionProcessed_sectionsMeanVirtualSize" with _ | q2
      · refine ⟨"pesectionProcessed_sectionsMeanVirtualSize", ?_⟩
        simp [netStep, hq1, hq2, hz, ebind_ok, ebind_err, epure, pyNeZero, pyDiv]
      · refine ⟨"", ?_⟩
        simp [netStep, hq1, hq2, hz, ebind_ok, ebind_err, epure, pyNeZero, pyDiv]

theorem sectionBody3_num {s : SubMap} (hs : numMap s = true) (d : DMap) :
    ∃ ek, sectionBody3 (TopVal.dict s) d
      = netStep2 (sectionNet3 s) "derived_entropyVariance" "derived_meanToMaxEntropyRatio" ek d := by
  unfold sectionBody3 sectionNet3
  simp only [subsc_num hs]
  rcases hq1 : qget s "pesectionProcessed_sectionsMaxEntropy" with _ | q1
  · exact ⟨"pesectionProcessed_sectionsMaxEntropy", by simp [netStep2, hq1, ebind_err]⟩
  · rcases hq2 : qget s "pesectionProcessed_sectionsMinEntropy" with _ | q2
    · exact ⟨"pesectionProcessed_sectionsMinEntropy",
        by simp [netStep2, hq1, hq2, ebind_ok, ebind_err, epure]⟩
    · by_cases hz : q1 = 0
      · refine ⟨"", ?_⟩
        simp [netStep2, hq1, hq2, hz, ebind_ok, epure, pyNeZero, pySub]
      · rcases hq3 : qget s "pesectionProcessed_sectionsMeanEntropy" with _ | q3
        · refine ⟨"pesectionProcessed_sectionsMeanEntropy", ?_⟩
          simp [netStep2, hq1, hq2, hq3, hz, ebind_ok, ebind_err, epure, pyNeZero, pySub, pyDiv]
        · refine ⟨"", ?_⟩
          simp [netStep2, hq1, hq2, hq3, hz, ebind_ok, ebind_err, epure, pyNeZero, pySub, pyDiv]

theorem sizeRatioPart_num {m : SubMap} (hm : numMap m = true) {f : ℚ} (hf : f ≠ 0)
    (nk outK : String) (d : DMap) :
    ∃ ek, sizeRatioPart (TopVal.dict m) nk outK (Val.num f) d
      = netStep (sizeNetPart m nk f) outK ek d := by
  unfold sizeRatioPart sizeNetPart
  simp only [subsc_num hm]
  rcases hq : qget m nk with _ | x
  · exact ⟨nk, by simp [netStep, hq, ebind_err]⟩
  · exact ⟨"", by simp [netStep, hq, hf, ebind_ok, ebind_err, epure, pyDiv]⟩

theorem resourceDensityPart_num {s g : SubMap} (hs : numMap s = true) (hg : numMap g = true)
    (d : DMap) :
    ∃ ek, resourceDensityPart (TopVal.dict s) (TopVal.dict g) d
      = netStep (resourceDensityNet s g) "derived_resourceDensity" ek d := by
  unfold resourceDensityPart resourceDensityNet
  simp only [subsc_num hg, subsc_num hs]
  rcases hfs : qget g "generic_fileSize" with _ | f
  · exact ⟨"generic_fileSize", by simp [netStep, hfs, ebind_err]⟩
  · by_cases hgt : 0 < f
    · rcases hnb : qget s "pesectionProcessed_resources_nb" with _ | nb
      · refine ⟨"pesectionProcessed_resources_nb", ?_⟩
        simp [netStep, hfs, hnb, hgt, ebind_ok, ebind_err, epure, pyGtZero]
      · refine ⟨"", ?_⟩
        simp [netStep, hfs, hnb, hgt, ebind_ok, ebind_err, epure, pyGtZero, pyDiv,
          (by norm_num : (1024 : ℚ) ≠ 0), div_ne_zero (ne_of_gt hgt) (by norm_num : (1024 : ℚ) ≠ 0)]
    · refine ⟨"", ?_⟩
      simp [netStep, hfs, hgt, ebind_ok, ebind_err, epure, pyGtZero]

theorem resourceRestPart_num {s : SubMap} (hs : numMap s = true) (d : DMap) :
    ∃ ek, resourceRestPart (TopVal.dict s) d
      = netStep2 (resourceRestNet s) "derived_resourceComplexity"
          "derived_resourceSizeVariance" ek d := by
  unfold resourceRestPart resourceRestNet
  simp only [subsc_num hs]
  rcases hnb : qget s "pesectionProcessed_resources_nb" with _ | nb
  · exact ⟨"pesectionProcessed_resources_nb", by simp [netStep2, hnb, ebind_err]⟩
  · by_cases hgt : 0 < nb
    · rcases hms : qget s "pesectionProcessed_resourcesMeanSize" with _ | ms
      · refine ⟨"pesectionProcessed_resourcesMeanSize", ?_⟩
        simp [netStep2, hnb, hms, hgt, ebind_ok, ebind_err, epure, pyGtZero]
      · rcases hme : qget s "pesectionProcessed_resourcesMeanEntropy" with _ | me
        · refine ⟨"pesectionProcessed_resourcesMeanEntropy", ?_⟩
          simp [netStep2, hnb, hms, hme, hgt, ebind_ok, ebind_err, epure, pyGtZero]
        · by_cases hz : ms = 0
          · refine ⟨"", ?_⟩
            simp [netStep2, hnb, hms, hme, hgt, hz, ebind_ok, ebind_err, epure, pyGtZero,
              pyMul, pyNeZero]
          · rcases hmx : qget s "pesectionProcessed_resourcesMaxSize" with _ | mx
            · refine ⟨"pesectionProcessed_resourcesMaxSize", ?_⟩
              simp [netStep2, hnb, hms, hme, hmx, hgt, hz, ebind_ok, ebind_err, epure,
                pyGtZero, pyMul, pyNeZero]
            · rcases hmn : qget s "pesectionProcessed_resourcesMinSize" with _ | mn
              · refine ⟨"pesectionProcessed_resourcesMinSize", ?_⟩
                simp [netStep2, hnb, hms, hme, hmx, hmn, hgt, hz, ebind_ok, ebind_err, epure,
                  pyGtZero, pyMul, pyNeZero, pySub]
              · refine ⟨"", ?_⟩
                simp [netStep2, hnb, hms, hme, hmx, hmn, hgt, hz, ebind_ok, ebind_err, epure,
                  pyGtZero, pyMul, pyNeZero, pySub, pyDiv]
    · refine ⟨"", ?_⟩
      simp [netStep2, hnb, hgt, ebind_ok, ebind_err, epure, pyGtZero]

/-! ### Per-stage characterisation on all-numeric inputs -/

theorem sectionStage_num {s : SubMap} (hs : numMap s = true) (d : DMap) :
    sectionStage (TopVal.dict s) d = .ok (pySet (pySet (pySet (pySet d
      "derived_sectionSizeRatio" (Val.num (sectionNet s).1))
      "derived_virtualToRawRatio" (Val.num (sectionNet s).2.1))
      "derived_entropyVariance" (Val.num (sectionNet s).2.2.1))
      "derived_meanToMaxEntropyRatio" (Val.num (sectionNet s).2.2.2)) := by
  obtain ⟨e1, h1⟩ := sectionBody1_num hs d
  rcases hn1 : sectionNet1 s with _ | v1
  · rw [hn1] at h1
    simp [sectionStage, sectionBody, catchKeyErr, sectionNet, h1, ebind_err,
      netStep, hn1, sectionDefaults]
  · rw [hn1] at h1
    obtain ⟨e2, h2⟩ := sectionBody2_num hs (pySet d "derived_sectionSizeRatio" (Val.num v1))
    rcases hn2 : sectionNet2 s with _ | v2
    · rw [hn2] at h2
      simp [sectionStage, sectionBody, catchKeyErr, sectionNet, h1, h2, ebind_ok, ebind_err,
        netStep, hn1, hn2, sectionDefaults]
    · rw [hn2] at h2
      obtain ⟨e3, h3⟩ := sectionBody3_num hs (pySet (pySet d "derived_sectionSizeRatio"
        (Val.num v1)) "derived_virtualToRawRatio" (Val.num v2))
      rcases hn3 : sectionNet3 s with _ | p
      · rw [hn3] at h3
        simp [sectionStage, sectionBody, catchKeyErr, sectionNet, h1, h2, h3, ebind_ok,
          ebind_err, netStep, netStep2, hn1, hn2, hn3, sectionDefaults]
      · rw [hn3] at h3
        simp [sectionStage, sectionBody, catchKeyErr, sectionNet, h1, h2, h3, ebind_ok,
          netStep, netStep2, hn1, hn2, hn3]

theorem sizeStage_num {g h : SubMap} (hg : numMap g = true) (hh : numMap h = true) (d : DMap) :
    sizeStage (TopVal.dict g) (TopVal.dict h) d = .ok (pySet (pySet (pySet (pySet (pySet d
      "derived_headerSizeRatio" (Val.num (sizeNet g h).1))
      "derived_codeSizeRatio" (Val.num (sizeNet g h).2.1))
      "derived_entropyToSizeRatio" (Val.num (sizeNet g h).2.2.1))
      "derived_uninitializedRatio" (Val.num (sizeNet g h).2.2.2.1))
      "derived_initializedRatio" (Val.num (sizeNet g h).2.2.2.2)) := by
  unfold sizeStage sizeBody sizeNet
  simp only [subsc_num hg]
  rcases hfs : qget g "generic_fileSize" with _ | f
  · simp [catchKeyErr, hfs, ebind_err, sizeDefaults]
  · by_cases hz : f = 0
    · simp [catchKeyErr, hfs, hz, ebind_ok, epure, pyNeZero, sizeDefaults]
    · obtain ⟨e1, h1⟩ := sizeRatioPart_num hh hz "header_SizeOfHeaders"
        "derived_headerSizeRatio" d
      rcases hn1 : sizeNetPart h "header_SizeOfHeaders" f with _ | a
      · rw [hn1] at h1
        simp [catchKeyErr, hfs, hz, h1, ebind_ok, ebind_err, epure, pyNeZero, netStep,
          hn1, sizeDefaults]
      · rw [hn1] at h1
        obtain ⟨e2, h2⟩ := sizeRatioPart_num hh hz "header_SizeOfCode" "derived_codeSizeRatio"
          (pySet d "derived_headerSizeRatio" (Val.num a))
        rcases hn2 : sizeNetPart h "header_SizeOfCode" f with _ | b
        · rw [hn2] at h2
          simp [catchKeyErr, hfs, hz, h1, h2, ebind_ok, ebind_err, epure, pyNeZero, netStep,
            hn1, hn2, sizeDefaults]
        · rw [hn2] at h2
          obtain ⟨e3, h3⟩ := sizeRatioPart_num hg hz "generic_fileEntropy"
            "derived_entropyToSizeRatio" (pySet (pySet d "derived_headerSizeRatio" (Val.num a))
              "derived_codeSizeRatio" (Val.num b))
          rcases hn3 : sizeNetPart g "generic_fileEntropy" f with _ | c
          · rw [hn3] at h3
            simp [catchKeyErr, hfs, hz, h1, h2, h3, ebind_ok, ebind_err, epure, pyNeZero,
              netStep, hn1, hn2, hn3, sizeDefaults]
          · rw [hn3] at h3
            obtain ⟨e4, h4⟩ := sizeRatioPart_num hh hz "header_SizeOfUninitializedData"
              "derived_uninitializedRatio" (pySet (pySet (pySet d "derived_headerSizeRatio"
                (Val.num a)) "derived_codeSizeRatio" (Val.num b)) "derived_entropyToSizeRatio"
                (Val.num c))
            rcases hn4 : sizeNetPart h "header_SizeOfUninitializedData" f with _ | u
            · rw [hn4] at h4
              simp [catchKeyErr, hfs, hz, h1, h2, h3, h4, ebind_ok, ebind_err, epure, pyNeZero,
                netStep, hn1, hn2, hn3, hn4, sizeDefaults]
            · rw [hn4] at h4
              obtain ⟨e5, h5⟩ := sizeRatioPart_num hh hz "header_SizeOfInitializedData"
                "derived_initializedRatio" (pySet (pySet (pySet (pySet d "derived_headerSizeRatio"
                  (Val.num a)) "derived_codeSizeRatio" (Val.num b)) "derived_entropyToSizeRatio"
                  (Val.num c)) "derived_uninitializedRatio" (Val.num u))
              rcases hn5 : sizeNetPart h "header_SizeOfInitializedData" f with _ | i
              · rw [hn5] at h5
                simp [catchKeyErr, hfs, hz, h1, h2, h3, h4, h5, ebind_ok, ebind_err, epure,
                  pyNeZero, netStep, hn1, hn2, hn3, hn4, hn5, sizeDefaults]
              · rw [hn5] at h5
                simp [catchKeyErr, hfs, hz, h1, h2, h3, h4, h5, ebind_ok, epure, pyNeZero,
                  netStep, hn1, hn2, hn3, hn4, hn5]

theorem resourceStage_num {s g : SubMap} (hs : numMap s = true) (hg : numMap g = true)
    (d : DMap) :
    resourceStage (TopVal.dict s) (TopVal.dict g) d = .ok (match resourceNet s g with
      | some t => pySet (pySet (pySet d "derived_resourceDensity" (Val.num t.1))
          "derived_resourceComplexity" (Val.num t.2.1))
          "derived_resourceSizeVariance" (Val.num t.2.2)
      | none => d) := by
  unfold resourceStage resourceBody resourceNet hasResourcesNb
  by_cases hhas : (pyGet s "pesectionProcessed_resources_nb").isSome
  · obtain ⟨e1, h1⟩ := resourceDensityPart_num hs hg d
    rcases hn1 : resourceDensityNet s g with _ | dens
    · rw [hn1] at h1
      simp [catchKeyErr, hhas, h1, ebind_ok, ebind_err, netStep, hn1, resourceDefaults]
    · rw [hn1] at h1
      obtain ⟨e2, h2⟩ := resourceRestPart_num hs (pySet d "derived_resourceDensity" (Val.num dens))
      rcases hn2 : resourceRestNet s with _ | p
      · rw [hn2] at h2
        simp [catchKeyErr, hhas, h1, h2, ebind_ok, ebind_err, netStep, netStep2, hn1, hn2,
          resourceDefaults]
      · rw [hn2] at h2
        simp [catchKeyErr, hhas, h1, h2, ebind_ok, netStep, netStep2, hn1, hn2]
  · simp [catchKeyErr, hhas, ebind_ok, epure]

theorem complexityStage_num {g s : SubMap} (hg : numMap g = true) (hs : numMap s = true)
    (L : ℚ → ℚ) (imps dlls : List String) (d : DMap) :
    complexityStage L (TopVal.dict g) (TopVal.dict s) imps dlls d
      = .ok (pySet d "derived_overallComplexity"
          (complexityNet L g s imps.length dlls.length)) := by
  have hcast : (-1 : ℚ) < (imps.length : ℚ) :=
    lt_of_lt_of_le (by norm_num) (Nat.cast_nonneg _)
  unfold complexityStage complexityBody complexityNet npLog1p
  simp only [subsc_num hg, subsc_num hs]
  rcases hfs : qget g "generic_fileSize" with _ | fs
  · simp [hfs, ebind_err]
  · by_cases hlog : -1 < fs
    · rcases hfe : qget g "generic_fileEntropy" with _ | fe
      · simp [hfs, hfe, hlog, hcast, ebind_ok, ebind_err, epure, pyDiv, pyAdd, pyMul,
          (by norm_num : (20 : ℚ) ≠ 0), (by norm_num : (8 : ℚ) ≠ 0)]
      · rcases hmx : qget s "pesectionProcessed_sectionsMaxEntropy" with _ | mxE
        · simp [hfs, hfe, hmx, hlog, hcast, ebind_ok, ebind_err, epure, pyDiv, pyAdd, pyMul,
            (by norm_num : (20 : ℚ) ≠ 0), (by norm_num : (8 : ℚ) ≠ 0),
            (by norm_num : (10 : ℚ) ≠ 0)]
        · simp [hfs, hfe, hmx, hlog, hcast, ebind_ok, ebind_err, epure, pyDiv, pyAdd, pyMul,
            (by norm_num : (20 : ℚ) ≠ 0), (by norm_num : (8 : ℚ) ≠ 0),
            (by norm_num : (10 : ℚ) ≠ 0), (by norm_num : (100 : ℚ) ≠ 0),
            (by norm_num : (4 : ℚ) ≠ 0)]
    · rcases hfe : qget g "generic_fileEntropy" with _ | fe
      · simp [hfs, hfe, hlog, hcast, ebind_ok, ebind_err, epure, pyDiv, pyAdd, pyMul,
          (by norm_num : (20 : ℚ) ≠ 0), (by norm_num : (8 : ℚ) ≠ 0)]
      · rcases hmx : qget s "pesectionProcessed_sectionsMaxEntropy" with _ | mxE
        · simp [hfs, hfe, hmx, hlog, hcast, ebind_ok, ebind_err, epure, pyDiv, pyAdd, pyMul,
            (by norm_num : (20 : ℚ) ≠ 0), (by norm_num : (8 : ℚ) ≠ 0),
            (by norm_num : (10 : ℚ) ≠ 0)]
        · simp [hfs, hfe, hmx, hlog, hcast, ebind_ok, ebind_err, epure, pyDiv, pyAdd, pyMul,
            (by norm_num : (20 : ℚ) ≠ 0), (by norm_num : (8 : ℚ) ≠ 0),
            (by norm_num : (10 : ℚ) ≠ 0), (by norm_num : (100 : ℚ) ≠ 0),
            (by norm_num : (4 : ℚ) ≠ 0)]

/-- Master characterisation: on a well-formed bundle with all-numeric
sub-dictionaries the call returns normally and produces exactly the net
`derived` dict. -/
theorem computeDerived_num (L : ℚ → ℚ) {b : Bundle} {s h g : SubMap} {I E D : List String}
    (hw : wfB b s h g I E D) (hs : numMap s = true) (hh : numMap h = true)
    (hg : numMap g = true) :
    computeDerived L b = .ok (derivedNum L s h g I.dedup E.dedup D.dedup) := by
  obtain ⟨h1, h2, h3, h4, h5, h6⟩ := hw
  unfold computeDerived derivedNum
  simp only [getItem, h1, h2, h3, h4, h5, h6, ebind_ok, ebind_err, toStrList,
    sectionStage_num hs, sizeStage_num hg hh, resourceStage_num hs hg,
    complexityStage_num hg hs]

/-! ### Lookup lemmas on the net derived dict -/

theorem apiStage_eq (i : List String) (d : DMap) :
    apiStage i d = pySet (pySet (pySet (pySet (pySet (pySet d
      "derived_networkApisRatio" (apiVal i ["socket", "connect", "send", "recv", "bind",
        "listen", "accept", "inet", "http", "ftp"]))
      "derived_fileApisRatio" (apiVal i ["file", "read", "write", "create", "delete",
        "move", "copy", "find"]))
      "derived_registryApisRatio" (apiVal i ["reg", "registry", "hkey"]))
      "derived_processApisRatio" (apiVal i ["process", "thread", "virtual", "memory",
        "alloc", "free"]))
      "derived_cryptoApisRatio" (apiVal i ["crypt", "decrypt", "encrypt", "hash", "rc4",
        "aes", "rsa"]))
      "derived_uiApisRatio" (apiVal i ["window", "dialog", "gui", "menu", "button",
        "display"]) := by
  unfold apiStage apiVal apiCategories
  by_cases hi : i.length > 0 <;> simp [hi]

theorem derivedNum_get_impExp (L : ℚ → ℚ) (s h g : SubMap) (i e dl : List String) :
    pyGet (derivedNum L s h g i e dl) "derived_importToExportRatio"
      = some (if e.length > 0 then Val.num ((i.length : ℚ) / (e.length : ℚ))
         else Val.num (i.length : ℚ)) := by
  unfold derivedNum impExpStage
  rcases resourceNet s g with _ | t <;> simp [apiStage_eq, pyGet_pySet]

theorem derivedNum_get_avgDll (L : ℚ → ℚ) (s h g : SubMap) (i e dl : List String) :
    pyGet (derivedNum L s h g i e dl) "derived_avgImportsPerDll"
      = some (if dl.length > 0 then Val.num ((i.length : ℚ) / (dl.length : ℚ))
         else Val.num 0) := by
  unfold derivedNum impExpStage
  rcases resourceNet s g with _ | t <;> simp [apiStage_eq, pyGet_pySet]

theorem derivedNum_get_api (L : ℚ → ℚ) (s h g : SubMap) (i e dl : List String)
    {c : String} {kws : List String} (hc : (c, kws) ∈ apiCategories) :
    pyGet (derivedNum L s h g i e dl) ("derived_" ++ c ++ "ApisRatio")
      = some (apiVal i kws) := by
  simp only [apiCategories, List.mem_cons, List.not_mem_nil, or_false] at hc
  unfold derivedNum impExpStage
  rcases hc with hc | hc | hc | hc | hc | hc <;>
    (injection hc with hc1 hc2; subst hc1; subst hc2) <;>
    rcases resourceNet s g with _ | t <;>
    simp [apiStage_eq, pyGet_pySet]

theorem derivedNum_get_size (L : ℚ → ℚ) (s h g : SubMap) (i e dl : List String) :
    pyGet (derivedNum L s h g i e dl) "derived_headerSizeRatio"
        = some (Val.num (sizeNet g h).1) ∧
    pyGet (derivedNum L s h g i e dl) "derived_codeSizeRatio"
        = some (Val.num (sizeNet g h).2.1) ∧
    pyGet (derivedNum L s h g i e dl) "derived_entropyToSizeRatio"
        = some (Val.num (sizeNet g h).2.2.1) ∧
    pyGet (derivedNum L s h g i e dl) "derived_uninitializedRatio"
        = some (Val.num (sizeNet g h).2.2.2.1) ∧
    pyGet (derivedNum L s h g i e dl) "derived_initializedRatio"
        = some (Val.num (sizeNet g h).2.2.2.2) := by
  unfold derivedNum impExpStage
  rcases resourceNet s g with _ | t <;> simp [apiStage_eq, pyGet_pySet]

theorem derivedNum_get_section (L : ℚ → ℚ) (s h g : SubMap) (i e dl : List String) :
    pyGet (derivedNum L s h g i e dl) "derived_sectionSizeRatio"
        = some (Val.num (sectionNet s).1) ∧
    pyGet (derivedNum L s h g i e dl) "derived_virtualToRawRatio"
        = some (Val.num (sectionNet s).2.1) ∧
    pyGet (derivedNum L s h g i e dl) "derived_entropyVariance"
        = some (Val.num (sectionNet s).2.2.1) ∧
    pyGet (derivedNum L s h g i e dl) "derived_meanToMaxEntropyRatio"
        = some (Val.num (sectionNet s).2.2.2) := by
  unfold derivedNum impExpStage
  rcases resourceNet s g with _ | t <;> simp [apiStage_eq, pyGet_pySet]

theorem derivedNum_get_overall (L : ℚ → ℚ) (s h g : SubMap) (i e dl : List String) :
    pyGet (derivedNum L s h g i e dl) "derived_overallComplexity"
      = some (complexityNet L g s i.length dl.length) := by
  unfold derivedNum impExpStage
  rcases resourceNet s g with _ | t <;> simp [apiStage_eq, pyGet_pySet]

theorem derivedNum_base_isSome (L : ℚ → ℚ) (s h g : SubMap) (i e dl : List String)
    {k : String} (hk : k ∈ baseKeys) :
    (pyGet (derivedNum L s h g i e dl) k).isSome = true := by
  simp only [baseKeys, sectionKeys, sizeKeys, apiKeys, List.mem_append, List.mem_cons,
    List.not_mem_nil, or_false, or_assoc] at hk
  unfold derivedNum impExpStage
  rcases hk with rfl | rfl | rfl | rfl | rfl | rfl | rfl | rfl | rfl | rfl | rfl | rfl |
      rfl | rfl | rfl | rfl | rfl | rfl <;>
    rcases resourceNet s g with _ | t <;>
    simp [apiStage_eq, pyGet_pySet]

theorem derivedNum_resource_none (L : ℚ → ℚ) (s h g : SubMap) (i e dl : List String)
    (hnb : resourceNet s g = none) {k : String} (hk : k ∈ resourceKeys) :
    pyGet (derivedNum L s h g i e dl) k = none := by
  simp only [resourceKeys, List.mem_cons, List.not_mem_nil, or_false] at hk
  unfold derivedNum impExpStage
  rcases hk with rfl | rfl | rfl <;>
    simp [hnb, apiStage_eq, pyGet_pySet, pyGet_nil]

theorem derivedNum_resource_some (L : ℚ → ℚ) (s h g : SubMap) (i e dl : List String)
    {t : ℚ × ℚ × ℚ} (hnb : resourceNet s g = some t) :
    pyGet (derivedNum L s h g i e dl) "derived_resourceDensity" = some (Val.num t.1) ∧
    pyGet (derivedNum L s h g i e dl) "derived_resourceComplexity" = some (Val.num t.2.1) ∧
    pyGet (derivedNum L s h g i e dl) "derived_resourceSizeVariance" = some (Val.num t.2.2) := by
  unfold derivedNum impExpStage
  simp [hnb, apiStage_eq, pyGet_pySet]

theorem resourceNet_none_iff (s g : SubMap) :
    resourceNet s g = none ↔ (pyGet s "pesectionProcessed_resources_nb").isSome = false := by
  unfold resourceNet
  by_cases hh : (pyGet s "pesectionProcessed_resources_nb").isSome <;> simp [hh]

theorem sizeNet_default {g h : SubMap}
    (hz : qget g "generic_fileSize" = none ∨ qget g "generic_fileSize" = some 0 ∨
      qget h "header_SizeOfHeaders" = none ∨ qget h "header_SizeOfCode" = none ∨
      qget g "generic_fileEntropy" = none ∨ qget h "header_SizeOfUninitializedData" = none ∨
      qget h "header_SizeOfInitializedData" = none) :
    sizeNet g h = (0, 0, 0, 0, 0) := by
  unfold sizeNet sizeNetPart
  rcases hfs : qget g "generic_fileSize" with _ | f <;>
    rcases h1 : qget h "header_SizeOfHeaders" with _ | a <;>
    rcases h2 : qget h "header_SizeOfCode" with _ | bq <;>
    rcases h3 : qget g "generic_fileEntropy" with _ | c <;>
    rcases h4 : qget h "header_SizeOfUninitializedData" with _ | u <;>
    rcases h5 : qget h "header_SizeOfInitializedData" with _ | iq <;>
    simp_all <;> by_cases h0 : f = 0 <;> simp_all

theorem sizeNet_vals {g h : SubMap} {f a bq c u iq : ℚ}
    (hf : qget g "generic_fileSize" = some f) (h0 : f ≠ 0)
    (h1 : qget h "header_SizeOfHeaders" = some a)
    (h2 : qget h "header_SizeOfCode" = some bq)
    (h3 : qget g "generic_fileEntropy" = some c)
    (h4 : qget h "header_SizeOfUninitializedData" = some u)
    (h5 : qget h "header_SizeOfInitializedData" = some iq) :
    sizeNet g h = (a / f, bq / f, c / f, u / f, iq / f) := by
  unfold sizeNet sizeNetPart
  simp [hf, h0, h1, h2, h3, h4, h5]

/-! ### Structural lemmas about the whole call -/

theorem enhance_shape {L : ℚ → ℚ} {b : Bundle} {out : Bundle}
    (hok : enhance_features L b = .ok out) :
    ∃ dm, computeDerived L b = .ok dm ∧ out = pySet b "derived" (TopVal.dict dm) := by
  unfold enhance_features at hok
  cases hcd : computeDerived L b with
  | error e => rw [hcd] at hok; simp [Except.map] at hok
  | ok dm =>
    rw [hcd] at hok
    simp only [Except.map] at hok
    exact ⟨dm, rfl, (Except.ok.inj hok).symm⟩

theorem computeDerived_ok_reads {L : ℚ → ℚ} {b : Bundle} {d : DMap}
    (hok : computeDerived L b = .ok d) :
    (pyGet b "imps").isSome = true ∧ (pyGet b "exps").isSome = true ∧
    (pyGet b "dlls").isSome = true := by
  unfold computeDerived at hok
  cases h1 : getItem b "sections" with
  | error e => rw [h1] at hok; simp [ebind_err] at hok
  | ok sv =>
  rw [h1, ebind_ok] at hok
  cases h2 : getItem b "headers" with
  | error e => rw [h2] at hok; simp [ebind_err] at hok
  | ok hv =>
  rw [h2, ebind_ok] at hok
  cases h3 : getItem b "generics" with
  | error e => rw [h3] at hok; simp [ebind_err] at hok
  | ok gv =>
  rw [h3, ebind_ok] at hok
  cases h4 : sectionStage sv [] with
  | error e => rw [h4] at hok; simp [ebind_err] at hok
  | ok d1 =>
  rw [h4, ebind_ok] at hok
  cases h5 : sizeStage gv hv d1 with
  | error e => rw [h5] at hok; simp [ebind_err] at hok
  | ok d2 =>
  rw [h5, ebind_ok] at hok
  cases hi : pyGet b "imps" with
  | none => rw [show getItem b "imps" = .error (.keyError "imps") by simp [getItem, hi]] at hok
            simp [ebind_err] at hok
  | some iv =>
  rw [show getItem b "imps" = .ok iv by simp [getItem, hi], ebind_ok] at hok
  cases h6 : toStrList iv with
  | error e => rw [h6] at hok; simp [ebind_err] at hok
  | ok il =>
  rw [h6, ebind_ok] at hok
  cases he : pyGet b "exps" with
  | none => rw [show getItem b "exps" = .error (.keyError "exps") by simp [getItem, he]] at hok
            simp [ebind_err] at hok
  | some ev =>
  rw [show getItem b "exps" = .ok ev by simp [getItem, he], ebind_ok] at hok
  cases h7 : toStrList ev with
  | error e => rw [h7] at hok; simp [ebind_err] at hok
  | ok el =>
  rw [h7, ebind_ok] at hok
  cases hd : pyGet b "dlls" with
  | none => rw [show getItem b "dlls" = .error (.keyError "dlls") by simp [getItem, hd]] at hok
            simp [ebind_err] at hok
  | some dv =>
  simp [hi, he, hd]

theorem enhance_isOk_eq (L : ℚ → ℚ) (b : Bundle) :
    isOkE (enhance_features L b) = isOkE (computeDerived L b) := by
  unfold enhance_features
  cases computeDerived L b <;> simp [Except.map, isOkE]

theorem enhance_missing_top (L : ℚ → ℚ) (b : Bundle)
    (hmiss : pyGet b "sections" = none ∨ pyGet b "headers" = none ∨
      pyGet b "generics" = none) :
    ∃ k, enhance_features L b = .error (.keyError k) ∧
      (k = "sections" ∨ k = "headers" ∨ k = "generics") := by
  unfold enhance_features computeDerived
  cases hsv : pyGet b "sections" with
  | none =>
    exact ⟨"sections", by simp [getItem, hsv, ebind_err, Except.map], Or.inl rfl⟩
  | some sv =>
    cases hhv : pyGet b "headers" with
    | none =>
      exact ⟨"headers", by simp [getItem, hsv, hhv, ebind_ok, ebind_err, Except.map],
        Or.inr (Or.inl rfl)⟩
    | some hv =>
      cases hgv : pyGet b "generics" with
      | none =>
        exact ⟨"generics", by simp [getItem, hsv, hhv, hgv, ebind_ok, ebind_err, Except.map],
          Or.inr (Or.inr rfl)⟩
      | some gv => simp_all

theorem enhance_derived_get (L : ℚ → ℚ) {b : Bundle} {s h g : SubMap} {I E D : List String}
    (hw : wfB b s h g I E D) (hs : numMap s = true) (hh : numMap h = true)
    (hg : numMap g = true) :
    pyGet (outOf (enhance_features L b)) "derived"
      = some (TopVal.dict (derivedNum L s h g I.dedup E.dedup D.dedup)) := by
  simp [enhance_features, computeDerived_num L hw hs hh hg, outOf, Except.map, pyGet_pySet]

/-! ### Claim theorems -/

/-- C1, counterexample: on a well-formed numeric bundle whose `sections` lacks
`pesectionProcessed_resources_nb`, the call returns but the three resource keys
are ABSENT from `derived` (not present with value `0` as the claim states). -/
theorem c1_resource_keys_absent :
    isOkE (enhance_features (fun q => q) cbNoRes) = true ∧
    pyGet (derivedDictOf (outOf (enhance_features (fun q => q) cbNoRes)))
      "derived_resourceDensity" = none ∧
    pyGet (derivedDictOf (outOf (enhance_features (fun q => q) cbNoRes)))
      "derived_resourceComplexity" = none ∧
    pyGet (derivedDictOf (outOf (enhance_features (fun q => q) cbNoRes)))
      "derived_resourceSizeVariance" = none ∧
    (pyGet (derivedDictOf (outOf (enhance_features (fun q => q) cbNoRes)))
      "derived_sectionSizeRatio").isSome = true := by
  with_unfolding_all decide

/-- C1, amended: on every well-formed all-numeric bundle the call returns and
`derived` contains the 18 non-resource vocabulary keys; the three resource keys
are present exactly when `sections` carries the resource-count key; and with
empty `sections`/`generics` the section, size and complexity outputs are `0`. -/
theorem c1_derived_vocabulary (L : ℚ → ℚ) (b : Bundle) (s h g : SubMap)
    (I E D : List String) (hw : wfB b s h g I E D) (hs : numMap s = true)
    (hh : numMap h = true) (hg : numMap g = true) :
    ∃ dm, pyGet (outOf (enhance_features L b)) "derived" = some (TopVal.dict dm) ∧
      (∀ k ∈ baseKeys, (pyGet dm k).isSome = true) ∧
      ((pyGet s "pesectionProcessed_resources_nb").isSome = false →
        ∀ k ∈ resourceKeys, pyGet dm k = none) ∧
      ((pyGet s "pesectionProcessed_resources_nb").isSome = true →
        ∀ k ∈ resourceKeys, (pyGet dm k).isSome = true) ∧
      (s = [] → g = [] → ∀ k ∈ sectionKeys ++ sizeKeys ++ ["derived_overallComplexity"],
        pyGet dm k = some (Val.num 0)) := by
  refine ⟨derivedNum L s h g I.dedup E.dedup D.dedup,
    enhance_derived_get L hw hs hh hg, ?_, ?_, ?_, ?_⟩
  · intro k hk
    exact derivedNum_base_isSome L s h g I.dedup E.dedup D.dedup hk
  · intro hnb k hk
    exact derivedNum_resource_none L s h g I.dedup E.dedup D.dedup
      ((resourceNet_none_iff s g).mpr hnb) hk
  · intro hnb k hk
    rcases hr : resourceNet s g with _ | t
    · rw [resourceNet_none_iff s g, hnb] at hr
      exact absurd hr (by simp)
    · have h3 := derivedNum_resource_some L s h g I.dedup E.dedup D.dedup hr
      simp only [resourceKeys, List.mem_cons, List.not_mem_nil, or_false] at hk
      rcases hk with rfl | rfl | rfl
      · simp [h3.1]
      · simp [h3.2.1]
      · simp [h3.2.2]
  · rintro rfl rfl k hk
    have hsec := derivedNum_get_section L [] h [] I.dedup E.dedup D.dedup
    have hsiz := derivedNum_get_size L [] h [] I.dedup E.dedup D.dedup
    have hov := derivedNum_get_overall L [] h [] I.dedup E.dedup D.dedup
    simp only [List.mem_append, sectionKeys, sizeKeys, List.mem_cons, List.not_mem_nil,
      or_false, or_assoc] at hk
    have hsn : sectionNet [] = ((0 : ℚ), (0 : ℚ), (0 : ℚ), (0 : ℚ)) := rfl
    have hzn : sizeNet [] h = ((0 : ℚ), (0 : ℚ), (0 : ℚ), (0 : ℚ), (0 : ℚ)) := rfl
    have hcn : complexityNet L [] [] I.dedup.length D.dedup.length = Val.num 0 := rfl
    rcases hk with rfl | rfl | rfl | rfl | rfl | rfl | rfl | rfl | rfl | rfl
    · rw [hsec.1, hsn]
    · rw [hsec.2.1, hsn]
    · rw [hsec.2.2.1, hsn]
    · rw [hsec.2.2.2, hsn]
    · rw [hsiz.1, hzn]
    · rw [hsiz.2.1, hzn]
    · rw [hsiz.2.2.1, hzn]
    · rw [hsiz.2.2.2.1, hzn]
    · rw [hsiz.2.2.2.2, hzn]
    · rw [hov, hcn]

/-- C1, witness: the amended statement instantiated on `cbEmpty`. -/
theorem c1_witness :
    ∃ dm, pyGet (outOf (enhance_features (fun q => q) cbEmpty)) "derived"
        = some (TopVal.dict dm) ∧
      (∀ k ∈ baseKeys, (pyGet dm k).isSome = true) ∧
      pyGet dm "derived_resourceDensity" = none ∧
      pyGet dm "derived_sectionSizeRatio" = some (Val.num 0) := by
  obtain ⟨dm, h1, h2, h3, _, h5⟩ := c1_derived_vocabulary (fun q => q) cbEmpty [] [] []
    [] [] [] ⟨rfl, rfl, rfl, rfl, rfl, rfl⟩ rfl rfl rfl
  exact ⟨dm, h1, h2, h3 (by decide) _ (by simp [resourceKeys]),
    h5 rfl rfl _ (by simp [sectionKeys])⟩

/-- C2, counterexample: a bundle that already carries a `derived` key does NOT
round-trip unchanged — the input value `obj 7` is replaced in the output. -/
theorem c2_pre_derived_not_preserved :
    pyGet cbPreDerived "derived" = some (TopVal.obj 7) ∧
    isOkE (enhance_features (fun q => q) cbPreDerived) = true ∧
    pyGet (outOf (enhance_features (fun q => q) cbPreDerived)) "derived"
      ≠ some (TopVal.obj 7) := by
  with_unfolding_all decide

/-- C2, amended: whenever the call returns, every key other than `derived`
is present in the output with its input value unchanged (the transform is a
pure function of the input: it builds a new top-level mapping and never
mutates the caller's sub-mappings), and `derived` maps to a dict. -/
theorem c2_frame_preservation (L : ℚ → ℚ) (b out : Bundle)
    (hok : enhance_features L b = .ok out) :
    (∀ k, k ≠ "derived" → pyGet out k = pyGet b k) ∧
    ∃ dm, pyGet out "derived" = some (TopVal.dict dm) := by
  obtain ⟨dm, hcd, rfl⟩ := enhance_shape hok
  constructor
  · intro k hk
    simp [pyGet_pySet, hk]
  · exact ⟨dm, by simp [pyGet_pySet]⟩

/-- C2, witness: the frame property instantiated on `cbEmpty`, checking the
`rich` entry in particular. -/
theorem c2_witness :
    pyGet (outOf (enhance_features (fun q => q) cbEmpty)) "rich" = pyGet cbEmpty "rich" ∧
    pyGet (outOf (enhance_features (fun q => q) cbEmpty)) "imps" = pyGet cbEmpty "imps" := by
  have hok : enhance_features (fun q => q) cbEmpty
      = .ok (outOf (enhance_features (fun q => q) cbEmpty)) := by
    with_unfolding_all decide
  obtain ⟨hframe, -⟩ := c2_frame_preservation (fun q => q) cbEmpty _ hok
  exact ⟨hframe "rich" (by decide), hframe "imps" (by decide)⟩

/-- C3: absence of any of `imps`/`exps`/`dlls` makes the call raise rather
than return, whereas on well-formed numeric bundles (any pattern of keys
inside `sections`/`headers`/`generics`, including all absent) it returns. -/
theorem c3_required_contract :
    (∀ (L : ℚ → ℚ) (b : Bundle), (pyGet b "imps" = none ∨ pyGet b "exps" = none ∨
        pyGet b "dlls" = none) → ∃ e, enhance_features L b = .error e) ∧
    (∀ (L : ℚ → ℚ) (b : Bundle) (s h g : SubMap) (I E D : List String),
      wfB b s h g I E D → numMap s = true → numMap h = true → numMap g = true →
      ∃ out, enhance_features L b = .ok out) := by
  constructor
  · intro L b hmiss
    cases hq : enhance_features L b with
    | error e => exact ⟨e, rfl⟩
    | ok out =>
      obtain ⟨dm, hcd, -⟩ := enhance_shape hq
      obtain ⟨hi, he, hd⟩ := computeDerived_ok_reads hcd
      rcases hmiss with hm | hm | hm
      · rw [hm] at hi; simp at hi
      · rw [hm] at he; simp at he
      · rw [hm] at hd; simp at hd
  · intro L b s h g I E D hw hs hh hg
    refine ⟨pySet b "derived" (TopVal.dict (derivedNum L s h g I.dedup E.dedup D.dedup)), ?_⟩
    unfold enhance_features
    rw [computeDerived_num L hw hs hh hg]
    rfl

/-- C3, witness: both halves instantiated on concrete bundles. -/
theorem c3_witness :
    (∃ e, enhance_features (fun q => q) cbNoImps = .error e) ∧
    (∃ out, enhance_features (fun q => q) cbSized = .ok out) := by
  refine ⟨c3_required_contract.1 (fun q => q) cbNoImps (by decide), ?_⟩
  exact c3_required_contract.2 (fun q => q) cbSized []
    [("header_SizeOfHeaders", .num 10), ("header_SizeOfCode", .num 20),
     ("header_SizeOfUninitializedData", .num 5), ("header_SizeOfInitializedData", .num 15)]
    [("generic_fileSize", .num 100), ("generic_fileEntropy", .num 4)]
    [] [] [] ⟨rfl, rfl, rfl, rfl, rfl, rfl⟩ rfl rfl rfl

/-- C4: `derived_importToExportRatio` is the quotient of distinct-import and
distinct-export counts, and degenerates to the import count on zero exports. -/
theorem c4_import_export_ratio (L : ℚ → ℚ) (b : Bundle) (s h g : SubMap)
    (I E D : List String) (hw : wfB b s h g I E D) (hs : numMap s = true)
    (hh : numMap h = true) (hg : numMap g = true) :
    ∃ dm, pyGet (outOf (enhance_features L b)) "derived" = some (TopVal.dict dm) ∧
      pyGet dm "derived_importToExportRatio"
        = some (if E.dedup.length > 0
            then Val.num ((I.dedup.length : ℚ) / (E.dedup.length : ℚ))
            else Val.num (I.dedup.length : ℚ)) := by
  exact ⟨derivedNum L s h g I.dedup E.dedup D.dedup, enhance_derived_get L hw hs hh hg,
    derivedNum_get_impExp L s h g I.dedup E.dedup D.dedup⟩

/-- C4, witness: `imps = {A, B}`, `exps = {}` yields the value `2`. -/
theorem c4_witness :
    ∃ dm, pyGet (outOf (enhance_features (fun q => q) cbTwoImps)) "derived"
        = some (TopVal.dict dm) ∧
      pyGet dm "derived_importToExportRatio" = some (Val.num 2) := by
  obtain ⟨dm, h1, h2⟩ := c4_import_export_ratio (fun q => q) cbTwoImps [] [] []
    ["A", "B"] [] [] ⟨rfl, rfl, rfl, rfl, rfl, rfl⟩ rfl rfl rfl
  refine ⟨dm, h1, ?_⟩
  rw [h2]
  with_unfolding_all decide

/-- C5: each of the six category ratios is the count of distinct imports whose
lower-cased name contains some keyword of the category, over the total count
of distinct imports, and `0` when there are no imports. -/
theorem c5_api_category_ratios (L : ℚ → ℚ) (b : Bundle) (s h g : SubMap)
    (I E D : List String) (hw : wfB b s h g I E D) (hs : numMap s = true)
    (hh : numMap h = true) (hg : numMap g = true) :
    ∃ dm, pyGet (outOf (enhance_features L b)) "derived" = some (TopVal.dict dm) ∧
      ∀ c kws, (c, kws) ∈ apiCategories →
        pyGet dm ("derived_" ++ c ++ "ApisRatio")
          = some (if I.dedup.length > 0
              then Val.num ((I.dedup.countP (fun n => matchesCategory kws n) : ℚ)
                  / (I.dedup.length : ℚ))
              else Val.num 0) := by
  refine ⟨derivedNum L s h g I.dedup E.dedup D.dedup, enhance_derived_get L hw hs hh hg, ?_⟩
  intro c kws hc
  rw [derivedNum_get_api L s h g I.dedup E.dedup D.dedup hc]
  rfl

/-- C5, witness: `imps = {CreateFileW, Send, RegOpenKeyA}` gives file, network
and registry ratios of `1/3` each. -/
theorem c5_witness :
    ∃ dm, pyGet (outOf (enhance_features (fun q => q) cbNoRes)) "derived"
        = some (TopVal.dict dm) ∧
      pyGet dm "derived_fileApisRatio" = some (Val.num (1 / 3)) ∧
      pyGet dm "derived_networkApisRatio" = some (Val.num (1 / 3)) ∧
      pyGet dm "derived_registryApisRatio" = some (Val.num (1 / 3)) := by
  obtain ⟨dm, h1, h2⟩ := c5_api_category_ratios (fun q => q) cbNoRes
    [("pesectionProcessed_sectionsMinSize", .num 2),
     ("pesectionProcessed_sectionsMaxSize", .num 8),
     ("pesectionProcessed_sectionsMeanSize", .num 4),
     ("pesectionProcessed_sectionsMeanVirtualSize", .num 6),
     ("pesectionProcessed_sectionsMaxEntropy", .num 6),
     ("pesectionProcessed_sectionsMinEntropy", .num 2),
     ("pesectionProcessed_sectionsMeanEntropy", .num 3)]
    [("header_SizeOfHeaders", .num 10), ("header_SizeOfCode", .num 20),
     ("header_SizeOfUninitializedData", .num 5), ("header_SizeOfInitializedData", .num 15)]
    [("generic_fileSize", .num 100), ("generic_fileEntropy", .num 4)]
    ["CreateFileW", "Send", "RegOpenKeyA"] [] ["kernel32.dll"]
    ⟨rfl, rfl, rfl, rfl, rfl, rfl⟩ rfl rfl rfl
  refine ⟨dm, h1, ?_, ?_, ?_⟩
  · have hv := h2 "file" ["file", "read", "write", "create", "delete", "move", "copy", "find"]
      (by simp [apiCategories])
    rw [show ("derived_" ++ "file" ++ "ApisRatio" : String) = "derived_fileApisRatio"
      from rfl] at hv
    rw [hv]
    with_unfolding_all decide
  · have hv := h2 "network" ["socket", "connect", "send", "recv", "bind", "listen",
      "accept", "inet", "http", "ftp"] (by simp [apiCategories])
    rw [show ("derived_" ++ "network" ++ "ApisRatio" : String) = "derived_networkApisRatio"
      from rfl] at hv
    rw [hv]
    with_unfolding_all decide
  · have hv := h2 "registry" ["reg", "registry", "hkey"] (by simp [apiCategories])
    rw [show ("derived_" ++ "registry" ++ "ApisRatio" : String) = "derived_registryApisRatio"
      from rfl] at hv
    rw [hv]
    with_unfolding_all decide

/-- C6: evaluation at the failing input: with `generic_fileSize = -2` the call
RETURNS (numpy's `log1p` yields `nan` without raising `ValueError`) and stores
the non-finite `nan` in `derived_overallComplexity` instead of the `0` the
claim requires for an invalid logarithm argument. -/
theorem c6_negative_log_nan :
    isOkE (enhance_features (fun q => q) cbNegSize) = true ∧
    pyGet (derivedDictOf (outOf (enhance_features (fun q => q) cbNegSize)))
      "derived_overallComplexity" = some Val.nan := by
  with_unfolding_all decide

/-- C7: the Size stage is atomic: if `fileSize` is `0`/absent or any referenced
key is absent, all five outputs are `0`; otherwise each is numerator/fileSize. -/
theorem c7_size_stage_policy (L : ℚ → ℚ) (b : Bundle) (s h g : SubMap)
    (I E D : List String) (hw : wfB b s h g I E D) (hs : numMap s = true)
    (hh : numMap h = true) (hg : numMap g = true) :
    ∃ dm, pyGet (outOf (enhance_features L b)) "derived" = some (TopVal.dict dm) ∧
      ((qget g "generic_fileSize" = none ∨ qget g "generic_fileSize" = some 0 ∨
        qget h "header_SizeOfHeaders" = none ∨ qget h "header_SizeOfCode" = none ∨
        qget g "generic_fileEntropy" = none ∨
        qget h "header_SizeOfUninitializedData" = none ∨
        qget h "header_SizeOfInitializedData" = none) →
        ∀ k ∈ sizeKeys, pyGet dm k = some (Val.num 0)) ∧
      (∀ f a bq c u iq, qget g "generic_fileSize" = some f → f ≠ 0 →
        qget h "header_SizeOfHeaders" = some a → qget h "header_SizeOfCode" = some bq →
        qget g "generic_fileEntropy" = some c →
        qget h "header_SizeOfUninitializedData" = some u →
        qget h "header_SizeOfInitializedData" = some iq →
        pyGet dm "derived_headerSizeRatio" = some (Val.num (a / f)) ∧
        pyGet dm "derived_codeSizeRatio" = some (Val.num (bq / f)) ∧
        pyGet dm "derived_entropyToSizeRatio" = some (Val.num (c / f)) ∧
        pyGet dm "derived_uninitializedRatio" = some (Val.num (u / f)) ∧
        pyGet dm "derived_initializedRatio" = some (Val.num (iq / f))) := by
  refine ⟨derivedNum L s h g I.dedup E.dedup D.dedup,
    enhance_derived_get L hw hs hh hg, ?_, ?_⟩
  · intro hz k hk
    have hget := derivedNum_get_size L s h g I.dedup E.dedup D.dedup
    rw [sizeNet_default hz] at hget
    simp only [sizeKeys, List.mem_cons, List.not_mem_nil, or_false] at hk
    rcases hk with rfl | rfl | rfl | rfl | rfl
    · exact hget.1
    · exact hget.2.1
    · exact hget.2.2.1
    · exact hget.2.2.2.1
    · exact hget.2.2.2.2
  · intro f a bq c u iq hf h0 h1 h2 h3 h4 h5
    have hget := derivedNum_get_size L s h g I.dedup E.dedup D.dedup
    rw [sizeNet_vals hf h0 h1 h2 h3 h4 h5] at hget
    exact hget

/-- C7, witness: `fileSize = 100` with the four header fields present yields
the five exact ratios on `cbSized`. -/
theorem c7_witness :
    ∃ dm, pyGet (outOf (enhance_features (fun q => q) cbSized)) "derived"
        = some (TopVal.dict dm) ∧
      pyGet dm "derived_headerSizeRatio" = some (Val.num (1 / 10)) ∧
      pyGet dm "derived_entropyToSizeRatio" = some (Val.num (1 / 25)) := by
  obtain ⟨dm, hsh, -, hv⟩ := c7_size_stage_policy (fun q => q) cbSized []
    [("header_SizeOfHeaders", .num 10), ("header_SizeOfCode", .num 20),
     ("header_SizeOfUninitializedData", .num 5), ("header_SizeOfInitializedData", .num 15)]
    [("generic_fileSize", .num 100), ("generic_fileEntropy", .num 4)]
    [] [] [] ⟨rfl, rfl, rfl, rfl, rfl, rfl⟩ rfl rfl rfl
  obtain ⟨ha, -, hc, -, -⟩ := hv 100 10 20 4 5 15 (by with_unfolding_all decide)
    (by norm_num) (by with_unfolding_all decide) (by with_unfolding_all decide)
    (by with_unfolding_all decide) (by with_unfolding_all decide)
    (by with_unfolding_all decide)
  refine ⟨dm, hsh, ?_, ?_⟩
  · rw [ha]; with_unfolding_all decide
  · rw [hc]; with_unfolding_all decide

/-- C8, counterexample: a malformed (string) value inside `sections` makes the
call raise an uncaught `TypeError` instead of returning. -/
theorem c8_malformed_raises :
    errOf (enhance_features (fun q => q) cbMalformed) = some PyErr.typeError := by
  with_unfolding_all decide

/-- C8, amended: missing or zero inputs in the defaulting stages never raise —
on any well-formed bundle with all-numeric sub-dictionaries (any pattern of
missing keys, any zero values) the call returns; only malformed non-numeric
values can propagate an uncaught `TypeError`. -/
theorem c8_numeric_never_raises (L : ℚ → ℚ) (b : Bundle) (s h g : SubMap)
    (I E D : List String) (hw : wfB b s h g I E D) (hs : numMap s = true)
    (hh : numMap h = true) (hg : numMap g = true) :
    isOkE (enhance_features L b) = true := by
  rw [enhance_isOk_eq, computeDerived_num L hw hs hh hg]
  rfl

/-- C8, witness: the amended no-raise statement instantiated on `cbEmpty`
(every key inside the three sub-dictionaries absent). -/
theorem c8_witness : isOkE (enhance_features (fun q => q) cbEmpty) = true :=
  c8_numeric_never_raises (fun q => q) cbEmpty [] [] [] [] [] []
    ⟨rfl, rfl, rfl, rfl, rfl, rfl⟩ rfl rfl rfl

/-- C9: a missing top-level `sections`/`headers`/`generics` key raises a
`KeyError` naming one of those keys, so no output bundle is produced. -/
theorem c9_missing_top_raises (L : ℚ → ℚ) (b : Bundle)
    (hmiss : pyGet b "sections" = none ∨ pyGet b "headers" = none ∨
      pyGet b "generics" = none) :
    ∃ k, enhance_features L b = .error (.keyError k) ∧
      (k = "sections" ∨ k = "headers" ∨ k = "generics") :=
  enhance_missing_top L b hmiss

/-- C9, witness: instantiated on a bundle lacking `sections`. -/
theorem c9_witness :
    ∃ k, enhance_features (fun q => q) cbNoSections = .error (.keyError k) ∧
      (k = "sections" ∨ k = "headers" ∨ k = "generics") :=
  c9_missing_top_raises (fun q => q) cbNoSections (by decide)

/-- C10: when the input already carries `derived`, the output's `derived` is
the freshly computed dict (the input value is discarded), while every other
key keeps its input value. -/
theorem c10_derived_replaced (L : ℚ → ℚ) (b out : Bundle)
    (hok : enhance_features L b = .ok out) :
    (∀ k, k ≠ "derived" → pyGet out k = pyGet b k) ∧
    ∃ dm, computeDerived L b = .ok dm ∧ pyGet out "derived" = some (TopVal.dict dm) := by
  obtain ⟨dm, hcd, rfl⟩ := enhance_shape hok
  refine ⟨fun k hk => by simp [pyGet_pySet, hk], dm, hcd, by simp [pyGet_pySet]⟩

/-- C10, witness: on `cbPreDerived2` (input `derived = obj 3`) the output's
`derived` is a dict, hence differs from the input's value. -/
theorem c10_witness :
    (∀ k, k ≠ "derived" →
      pyGet (outOf (enhance_features (fun q => q) cbPreDerived2)) k
        = pyGet cbPreDerived2 k) ∧
    pyGet (outOf (enhance_features (fun q => q) cbPreDerived2)) "derived"
      ≠ some (TopVal.obj 3) := by
  have hok : enhance_features (fun q => q) cbPreDerived2
      = .ok (outOf (enhance_features (fun q => q) cbPreDerived2)) := by
    with_unfolding_all decide
  obtain ⟨hframe, dm, -, hd⟩ := c10_derived_replaced (fun q => q) cbPreDerived2 _ hok
  exact ⟨hframe, by rw [hd]; intro hc; cases hc⟩

end Packware
